import Mathlib

/-!
Verification of the generated JNI boundary header
`src/TMessagesProj/jni/voip/webrtc/sdk/android/generated_video_jni/VideoDecoderWrapper_jni.h`.

The header declares two trampolines between the managed (Java) runtime and
the native `VideoDecoderWrapper` object, plus two process-wide lazily
initialized handle caches:

* `Java_org_webrtc_VideoDecoderWrapper_nativeOnDecodedFrame` (lines 42-53):
  checks the raw native pointer for null and forwards its three object
  arguments, each wrapped in a `JavaParamRef`, to the native handler
  `OnDecodedFrame`.
* `Java_VideoDecoderWrapper_createDecoderCallback` (lines 57-76): lazily
  resolves the class `org/webrtc/VideoDecoderWrapper` and the static method
  `createDecoderCallback` with signature
  `(J)Lorg/webrtc/VideoDecoder$Callback;`, invokes the managed factory with
  the `jlong` argument and wraps the returned `jobject` in a
  `ScopedJavaLocalRef`.

JNI handles (`jclass`, `jmethodID`, `jobject`) are modelled as `Nat` with
`0` standing for `nullptr` where a null object can flow; the atomic cache
slots are `Option Nat` with `none` for the initial `nullptr`; `jlong` is
`Int`.  The helper machinery of `jni_generator_helper.h` / `jni_zero`
(`LazyGetClass`, `CHECK_NATIVE_PTR`, `CHECK_CLAZZ`,
`JniJavaCallContextChecked`, `ScopedJavaLocalRef`) is declared outside the
given sources, so those parts are modelled from the spec, as marked on each
definition.  Observable effects (fatal checks triggered, calls into the
native handler, managed-method invocations, lookup strings consulted) are
recorded explicitly in the result structures so the claims about them can
be stated.
-/

namespace VideoDecoderWrapperJni

/-- Capabilities of the managed runtime consumed by this header: class
resolution by path string, static method-id resolution by name/signature
strings, and static object-method invocation.  `findClass` and
`getStaticMethodID` return `none` on resolution failure; handles and
objects are `Nat` (with `0` for a null `jobject`), `jlong` arguments are
`Int`. -/
structure JNIEnv where
  findClass : String → Option Nat
  getStaticMethodID : Nat → String → String → Option Nat
  callStaticObjectMethod : Nat → Nat → Int → Nat

/-- Class path constant `kClassPath_org_webrtc_VideoDecoderWrapper`
(header line 23). -/
def kClassPath_org_webrtc_VideoDecoderWrapper : String :=
  "org/webrtc/VideoDecoderWrapper"

/-- Method name string passed to the lazy method lookup (header line 68). -/
def kMethodName_createDecoderCallback : String :=
  "createDecoderCallback"

/-- JNI signature string passed to the lazy method lookup (header line 69). -/
def kMethodSignature_createDecoderCallback : String :=
  "(J)Lorg/webrtc/VideoDecoder$Callback;"

/-- The two process-wide atomic cache slots of the header:
`g_org_webrtc_VideoDecoderWrapper_clazz` (line 25, a `std::atomic<jclass>`
initialized to `nullptr`) and
`g_org_webrtc_VideoDecoderWrapper_createDecoderCallback1` (line 56, a
`std::atomic<jmethodID>` initialized to `nullptr`).  `none` models the
initial null value. -/
structure CacheState where
  g_org_webrtc_VideoDecoderWrapper_clazz : Option Nat
  g_org_webrtc_VideoDecoderWrapper_createDecoderCallback1 : Option Nat
deriving DecidableEq, Repr

/-- Modelled from the spec: `jni_zero::LazyGetClass` (declared in
`jni_generator_helper.h` / `jni_zero`, not under `src/`).  Spec 4.1: "on
first use, resolve a named class or method by string signature lookup
against the managed runtime; cache the resolved handle in a process-wide
atomic slot; on every subsequent use, read the cached handle directly."
Returns the looked-up handle (`none` when resolution fails) together with
the updated cache slot. -/
def LazyGetClass (env : JNIEnv) (path : String) (cache : Option Nat) :
    Option Nat × Option Nat :=
  match cache with
  | some c => (some c, some c)
  | none =>
    match env.findClass path with
    | some c => (some c, some c)
    | none => (none, none)

/-- Accessor `org_webrtc_VideoDecoderWrapper_clazz` (header lines 28-31):
`LazyGetClass` applied to the fixed class path and the atomic slot
`g_org_webrtc_VideoDecoderWrapper_clazz`, threaded explicitly. -/
def org_webrtc_VideoDecoderWrapper_clazz (env : JNIEnv)
    (g_clazz : Option Nat) : Option Nat × Option Nat :=
  LazyGetClass env kClassPath_org_webrtc_VideoDecoderWrapper g_clazz

/-- Modelled from the spec: the lazy static-method-id lookup performed by
`jni_zero::JniJavaCallContextChecked.Init<jni_zero::MethodID::TYPE_STATIC>`
(header lines 63-70; the helper itself is not under `src/`).  Spec 4.1:
resolve by string signature lookup on first use, cache in the atomic slot,
read the cache directly thereafter.  Returns the method id (`none` when
resolution fails) together with the updated cache slot. -/
def lazyGetStaticMethodID (env : JNIEnv) (clazz : Nat) (name sig : String)
    (cache : Option Nat) : Option Nat × Option Nat :=
  match cache with
  | some m => (some m, some m)
  | none =>
    match env.getStaticMethodID clazz name sig with
    | some m => (some m, some m)
    | none => (none, none)

/-- Fatal integrity checks this header can trigger: the null-native-pointer
check of `CHECK_NATIVE_PTR` (line 50), the null-class check of
`CHECK_CLAZZ` (lines 60-61), and method-resolution failure inside the
checked call context (lines 63-70).  All are process-terminating (spec 7). -/
inductive FatalCheck where
  | nativePtrNull (methodName : String)
  | clazzResolutionFailed
  | methodResolutionFailed (name sig : String)
deriving DecidableEq, Repr

/-- Modelled from the spec: `jni_zero::JavaParamRef<jobject>`, the wrapper
applied to each object argument before it is handed to the native handler
(header lines 51-52).  It carries the `jobject` unmodified. -/
structure JavaParamRef where
  obj : Nat
deriving DecidableEq, Repr

/-- A call into the native handler `VideoDecoderWrapper::OnDecodedFrame`
(header lines 51-52): the native pointer that was dereferenced to make the
virtual call, and the three wrapped object arguments. -/
structure OnDecodedFrameCall where
  nativePtr : Int
  frame : JavaParamRef
  decodeTimeMs : JavaParamRef
  qp : JavaParamRef
deriving DecidableEq, Repr

/-- Observable outcome of one invocation of the decoded-frame trampoline:
the fatal checks triggered, the calls made into the native handler (the
only place the native pointer is dereferenced), and the cache slots after
the call. -/
structure NativeOnDecodedFrameResult where
  fatals : List FatalCheck
  calls : List OnDecodedFrameCall
  cache : CacheState
deriving DecidableEq, Repr

/-- Modelled from the spec: the `CHECK_NATIVE_PTR` macro (header line 50,
declared in `jni_generator_helper.h`, not under `src/`).  Spec 7: the null
native pointer is "detected by an explicit check"; spec 4.2: "the native
pointer is checked for null before use; no other validation occurs".  The
check triggers exactly when the pointer is null. -/
def CHECK_NATIVE_PTR_triggers (nativePtr : Int) : Bool :=
  nativePtr == 0

/-- Trampoline `Java_org_webrtc_VideoDecoderWrapper_nativeOnDecodedFrame`
(header lines 42-53).  The `jlong` argument is reinterpreted as the native
pointer (line 49); `CHECK_NATIVE_PTR` fires on null (line 50); otherwise
the native handler is invoked once with the three object arguments each
wrapped in a `JavaParamRef` (lines 51-52).  The cache slots are threaded
through untouched: the function body never mentions them. -/
def Java_org_webrtc_VideoDecoderWrapper_nativeOnDecodedFrame
    (st : CacheState) (nativeVideoDecoderWrapper : Int)
    (frame decodeTimeMs qp : Nat) : NativeOnDecodedFrameResult :=
  if CHECK_NATIVE_PTR_triggers nativeVideoDecoderWrapper then
    { fatals := [FatalCheck.nativePtrNull "OnDecodedFrame"]
      calls := []
      cache := st }
  else
    { fatals := []
      calls := [{ nativePtr := nativeVideoDecoderWrapper
                  frame := { obj := frame }
                  decodeTimeMs := { obj := decodeTimeMs }
                  qp := { obj := qp } }]
      cache := st }

/-- Modelled from the spec: `jni_zero::ScopedJavaLocalRef<jobject>`
(header lines 57, 75, declared outside `src/`).  Spec 3: "a short-lived
capability granting safe access to a managed object reference for the
duration of a single call frame, released automatically when the call
frame exits."  It wraps the `jobject` (possibly `0`, i.e. null). -/
structure ScopedJavaLocalRef where
  obj : Nat
deriving DecidableEq, Repr

/-- Release action performed on a local reference. -/
inductive ReleaseEvent where
  | deleteLocalRef (obj : Nat)
deriving DecidableEq, Repr

/-- Modelled from the spec: the destructor of `ScopedJavaLocalRef`, run
when the call frame exits, releases the wrapped reference (spec 3 and the
glossary entry "Scoped reference"). -/
def ScopedJavaLocalRef.onFrameExit (r : ScopedJavaLocalRef) : ReleaseEvent :=
  ReleaseEvent.deleteLocalRef r.obj

/-- A record of one method-id resolution actually performed against the
managed runtime (a cache miss in the lazy lookup). -/
structure MethodLookup where
  clazz : Nat
  name : String
  signature : String
  isStatic : Bool
deriving DecidableEq, Repr

/-- A record of one invocation of the static managed factory method via
`env->CallStaticObjectMethod` (header lines 72-74). -/
structure ManagedCall where
  clazz : Nat
  methodId : Nat
  arg : Int
deriving DecidableEq, Repr

/-- Observable outcome of one invocation of
`Java_VideoDecoderWrapper_createDecoderCallback`: fatal checks triggered,
class-path strings looked up against the runtime (cache misses only),
method-id resolutions performed (cache misses only), managed factory
invocations, the returned scoped reference (`none` when the call aborted),
and the cache slots after the call. -/
structure CreateDecoderCallbackResult where
  fatals : List FatalCheck
  classLookups : List String
  methodLookups : List MethodLookup
  managedCalls : List ManagedCall
  ret : Option ScopedJavaLocalRef
  cache : CacheState
deriving DecidableEq, Repr

/-- Trampoline `Java_VideoDecoderWrapper_createDecoderCallback` (header
lines 57-76): obtain the class handle via
`org_webrtc_VideoDecoderWrapper_clazz` (line 59), abort fatally if it is
null (`CHECK_CLAZZ`, lines 60-61, modelled from spec 7: resolution failure
is process-terminating and nothing is returned); lazily resolve the static
method id `createDecoderCallback` / `(J)Lorg/webrtc/VideoDecoder$Callback;`
into `g_org_webrtc_VideoDecoderWrapper_createDecoderCallback1` (lines
63-70, aborting fatally on failure); call the static managed factory with
`nativeDecoder` (lines 72-74) and wrap the returned `jobject` in a
`ScopedJavaLocalRef` (line 75). -/
def Java_VideoDecoderWrapper_createDecoderCallback (env : JNIEnv)
    (st : CacheState) (nativeDecoder : Int) : CreateDecoderCallbackResult :=
  match org_webrtc_VideoDecoderWrapper_clazz env
      st.g_org_webrtc_VideoDecoderWrapper_clazz with
  | (none, clazzSlot) =>
    { fatals := [FatalCheck.clazzResolutionFailed]
      classLookups :=
        if st.g_org_webrtc_VideoDecoderWrapper_clazz = none then
          [kClassPath_org_webrtc_VideoDecoderWrapper] else []
      methodLookups := []
      managedCalls := []
      ret := none
      cache := { st with g_org_webrtc_VideoDecoderWrapper_clazz := clazzSlot } }
  | (some clazz, clazzSlot) =>
    match lazyGetStaticMethodID env clazz kMethodName_createDecoderCallback
        kMethodSignature_createDecoderCallback
        st.g_org_webrtc_VideoDecoderWrapper_createDecoderCallback1 with
    | (none, methodSlot) =>
      { fatals := [FatalCheck.methodResolutionFailed
          kMethodName_createDecoderCallback
          kMethodSignature_createDecoderCallback]
        classLookups :=
          if st.g_org_webrtc_VideoDecoderWrapper_clazz = none then
            [kClassPath_org_webrtc_VideoDecoderWrapper] else []
        methodLookups :=
          if st.g_org_webrtc_VideoDecoderWrapper_createDecoderCallback1
              = none then
            [{ clazz := clazz
               name := kMethodName_createDecoderCallback
               signature := kMethodSignature_createDecoderCallback
               isStatic := true }] else []
        managedCalls := []
        ret := none
        cache := { g_org_webrtc_VideoDecoderWrapper_clazz := clazzSlot
                   g_org_webrtc_VideoDecoderWrapper_createDecoderCallback1 :=
                     methodSlot } }
    | (some method_id, methodSlot) =>
      { fatals := []
        classLookups :=
          if st.g_org_webrtc_VideoDecoderWrapper_clazz = none then
            [kClassPath_org_webrtc_VideoDecoderWrapper] else []
        methodLookups :=
          if st.g_org_webrtc_VideoDecoderWrapper_createDecoderCallback1
              = none then
            [{ clazz := clazz
               name := kMethodName_createDecoderCallback
               signature := kMethodSignature_createDecoderCallback
               isStatic := true }] else []
        managedCalls := [{ clazz := clazz
                           methodId := method_id
                           arg := nativeDecoder }]
        ret := some { obj := env.callStaticObjectMethod clazz method_id
                        nativeDecoder }
        cache := { g_org_webrtc_VideoDecoderWrapper_clazz := clazzSlot
                   g_org_webrtc_VideoDecoderWrapper_createDecoderCallback1 :=
                     methodSlot } }

/-! ### Concurrency model for the class-cache first-use race

Spec 5 describes the only shared mutable state: the lazily-initialized
handle cache, "protected by atomic load/compare-and-set so concurrent
first-use races resolve safely to a single cached value".  Modelled from
the spec (the atomic load / compare-and-set discipline of `LazyGetClass`
lives in `jni_zero`, not under `src/`): each thread loads the slot; on a
hit it finishes with the cached value; on a miss it resolves the class by
the fixed path string, compare-and-sets the slot (the CAS publishes only
when the slot is still null), and finishes with the value then held by the
slot. -/

/-- Program counter of one thread racing on first use of
`g_org_webrtc_VideoDecoderWrapper_clazz`: about to load the slot; holding
a freshly resolved handle `v`, about to compare-and-set; or finished
having observed handle `c`. -/
inductive ThreadPC where
  | start
  | resolved (v : Nat)
  | done (c : Nat)
deriving DecidableEq, Repr

/-- Shared state of the race: the atomic class slot and the program
counter of every thread (threads indexed by `Nat`). -/
structure ClazzRaceState where
  cache : Option Nat
  threads : Nat → ThreadPC

/-- Update the program counter of thread `i`. -/
def setThread (t : Nat → ThreadPC) (i : Nat) (p : ThreadPC) :
    Nat → ThreadPC :=
  fun j => if j = i then p else t j

/-- Initial race state: the slot holds its initial null value (header
line 25) and every thread is about to perform first use. -/
def clazzRaceInit : ClazzRaceState :=
  { cache := none, threads := fun _ => ThreadPC.start }

/-- One interleaved step of the first-use race on
`g_org_webrtc_VideoDecoderWrapper_clazz` under runtime `env`: an atomic
load that hits, an atomic load that misses followed by resolution of the
fixed class path, a compare-and-set that publishes (slot still null), or a
compare-and-set that loses (another thread already published) after which
the thread adopts the published value. -/
inductive ClazzCacheStep (env : JNIEnv) :
    ClazzRaceState → ClazzRaceState → Prop where
  | readHit (s : ClazzRaceState) (i c : Nat) :
      s.threads i = ThreadPC.start → s.cache = some c →
      ClazzCacheStep env s
        { cache := s.cache, threads := setThread s.threads i (ThreadPC.done c) }
  | readMiss (s : ClazzRaceState) (i v : Nat) :
      s.threads i = ThreadPC.start → s.cache = none →
      env.findClass kClassPath_org_webrtc_VideoDecoderWrapper = some v →
      ClazzCacheStep env s
        { cache := s.cache
          threads := setThread s.threads i (ThreadPC.resolved v) }
  | casWin (s : ClazzRaceState) (i v : Nat) :
      s.threads i = ThreadPC.resolved v → s.cache = none →
      ClazzCacheStep env s
        { cache := some v, threads := setThread s.threads i (ThreadPC.done v) }
  | casLose (s : ClazzRaceState) (i v c : Nat) :
      s.threads i = ThreadPC.resolved v → s.cache = some c →
      ClazzCacheStep env s
        { cache := s.cache, threads := setThread s.threads i (ThreadPC.done c) }

/-- Invariant of the race: every published slot value, every privately
resolved value and every finished thread's observation coincides with the
(idempotent) resolution of the fixed class path. -/
def clazzRaceInv (env : JNIEnv) (s : ClazzRaceState) : Prop :=
  (∀ v, s.cache = some v →
    env.findClass kClassPath_org_webrtc_VideoDecoderWrapper = some v) ∧
  (∀ i v, s.threads i = ThreadPC.resolved v →
    env.findClass kClassPath_org_webrtc_VideoDecoderWrapper = some v) ∧
  (∀ i c, s.threads i = ThreadPC.done c →
    env.findClass kClassPath_org_webrtc_VideoDecoderWrapper = some c)

lemma clazzRaceInv_init (env : JNIEnv) : clazzRaceInv env clazzRaceInit := by
  refine ⟨fun v hv => by simp [clazzRaceInit] at hv,
    fun i v hv => by simp [clazzRaceInit] at hv,
    fun i c hc => by simp [clazzRaceInit] at hc⟩

lemma clazzRaceInv_step (env : JNIEnv) {s s' : ClazzRaceState}
    (hinv : clazzRaceInv env s) (hstep : ClazzCacheStep env s s') :
    clazzRaceInv env s' := by
  obtain ⟨hcache, hres, hdone⟩ := hinv
  cases hstep with
  | readHit i c hi hc =>
    refine ⟨hcache, ?_, ?_⟩
    · intro j v hj
      by_cases hji : j = i
      · subst hji; simp [setThread] at hj
      · exact hres j v (by simpa [setThread, hji] using hj)
    · intro j c' hj
      by_cases hji : j = i
      · subst hji
        simp [setThread] at hj
        exact hj ▸ hcache c hc
      · exact hdone j c' (by simpa [setThread, hji] using hj)
  | readMiss i v hi hc hv =>
    refine ⟨hcache, ?_, ?_⟩
    · intro j v' hj
      by_cases hji : j = i
      · subst hji
        simp [setThread] at hj
        exact hj ▸ hv
      · exact hres j v' (by simpa [setThread, hji] using hj)
    · intro j c' hj
      by_cases hji : j = i
      · subst hji; simp [setThread] at hj
      · exact hdone j c' (by simpa [setThread, hji] using hj)
  | casWin i v hi hc =>
    have hv := hres i v hi
    refine ⟨?_, ?_, ?_⟩
    · intro v' hv'
      simp at hv'
      exact hv' ▸ hv
    · intro j v' hj
      by_cases hji : j = i
      · subst hji; simp [setThread] at hj
      · exact hres j v' (by simpa [setThread, hji] using hj)
    · intro j c' hj
      by_cases hji : j = i
      · subst hji
        simp [setThread] at hj
        exact hj ▸ hv
      · exact hdone j c' (by simpa [setThread, hji] using hj)
  | casLose i v c hi hc =>
    refine ⟨hcache, ?_, ?_⟩
    · intro j v' hj
      by_cases hji : j = i
      · subst hji; simp [setThread] at hj
      · exact hres j v' (by simpa [setThread, hji] using hj)
    · intro j c' hj
      by_cases hji : j = i
      · subst hji
        simp [setThread] at hj
        exact hj ▸ hcache c hc
      · exact hdone j c' (by simpa [setThread, hji] using hj)

lemma clazzRaceInv_reachable (env : JNIEnv) {s : ClazzRaceState}
    (h : Relation.ReflTransGen (ClazzCacheStep env) clazzRaceInit s) :
    clazzRaceInv env s := by
  induction h with
  | refl => exact clazzRaceInv_init env
  | tail _ hstep ih => exact clazzRaceInv_step env ih hstep

/-! ### Concrete runtimes used to exercise the theorems -/

/-- A managed runtime in which every resolution fails. -/
def envAllFail : JNIEnv :=
  { findClass := fun _ => none
    getStaticMethodID := fun _ _ _ => none
    callStaticObjectMethod := fun _ _ _ => 0 }

/-- A managed runtime that resolves every class to handle `7`, every
method to id `11`, and whose factory returns the null `jobject` (`0`). -/
def envResolves : JNIEnv :=
  { findClass := fun _ => some 7
    getStaticMethodID := fun _ _ _ => some 11
    callStaticObjectMethod := fun _ _ _ => 0 }

/-- A managed runtime that resolves classes but in which static-method
resolution fails. -/
def envNoMethod : JNIEnv :=
  { findClass := fun _ => some 7
    getStaticMethodID := fun _ _ _ => none
    callStaticObjectMethod := fun _ _ _ => 0 }

/-! ### Claim theorems -/

/-- C1: For every non-null native pointer value, calling the forwarding
entry point `Java_org_webrtc_VideoDecoderWrapper_nativeOnDecodedFrame`
with that pointer and any `frame`, `decodeTimeMs` and `qp` object
arguments results in exactly one call to the native wrapper's
`OnDecodedFrame` handler, with the same three object arguments passed
through unmodified, each only wrapped in a `JavaParamRef`, and no fatal
check fires.  The conclusion holds for arbitrary cache state and
arbitrary object arguments (including null ones), so no validation other
than the null check on the native pointer is performed. -/
theorem nativeOnDecodedFrame_forwards_unmodified (st : CacheState)
    (ptr : Int) (frame decodeTimeMs qp : Nat) (h : ptr ≠ 0) :
    (Java_org_webrtc_VideoDecoderWrapper_nativeOnDecodedFrame st ptr frame
        decodeTimeMs qp).calls =
      [{ nativePtr := ptr
         frame := { obj := frame }
         decodeTimeMs := { obj := decodeTimeMs }
         qp := { obj := qp } }] ∧
    (Java_org_webrtc_VideoDecoderWrapper_nativeOnDecodedFrame st ptr frame
        decodeTimeMs qp).fatals = [] := by
  simp [Java_org_webrtc_VideoDecoderWrapper_nativeOnDecodedFrame,
    CHECK_NATIVE_PTR_triggers, h]

/-- Witness for C1 at native pointer `1` and object arguments `2`, `3`,
`4` with both cache slots empty. -/
theorem nativeOnDecodedFrame_forwards_unmodified_witness :
    (Java_org_webrtc_VideoDecoderWrapper_nativeOnDecodedFrame
        ⟨none, none⟩ 1 2 3 4).calls =
      [{ nativePtr := 1
         frame := { obj := 2 }
         decodeTimeMs := { obj := 3 }
         qp := { obj := 4 } }] ∧
    (Java_org_webrtc_VideoDecoderWrapper_nativeOnDecodedFrame
        ⟨none, none⟩ 1 2 3 4).fatals = [] :=
  nativeOnDecodedFrame_forwards_unmodified ⟨none, none⟩ 1 2 3 4 (by decide)

/-- C2: For every call to
`Java_org_webrtc_VideoDecoderWrapper_nativeOnDecodedFrame` in which the
`nativeVideoDecoderWrapper` argument is null (zero), the fatal check path
is triggered exactly once, and the underlying `OnDecodedFrame` handler is
not invoked — `calls = []`, and since the recorded handler invocation is
the only place the native pointer is dereferenced, the pointer is never
dereferenced. -/
theorem nativeOnDecodedFrame_null_fatal (st : CacheState)
    (frame decodeTimeMs qp : Nat) :
    (Java_org_webrtc_VideoDecoderWrapper_nativeOnDecodedFrame st 0 frame
        decodeTimeMs qp).fatals = [FatalCheck.nativePtrNull "OnDecodedFrame"] ∧
    (Java_org_webrtc_VideoDecoderWrapper_nativeOnDecodedFrame st 0 frame
        decodeTimeMs qp).calls = [] := by
  simp [Java_org_webrtc_VideoDecoderWrapper_nativeOnDecodedFrame,
    CHECK_NATIVE_PTR_triggers]

/-- C4: Once a cache slot is populated, every subsequent lookup returns
the identical handle: with `g_org_webrtc_VideoDecoderWrapper_clazz` holding
`c`, two consecutive calls to `org_webrtc_VideoDecoderWrapper_clazz`
(threading the slot) both return `c`, and likewise two consecutive lazy
method-id lookups on `g_org_webrtc_VideoDecoderWrapper_createDecoderCallback1`
holding `m` both return `m`; repeated lookup is idempotent. -/
theorem handle_cache_idempotent (env : JNIEnv) (c m clazz : Nat) :
    (org_webrtc_VideoDecoderWrapper_clazz env (some c)).1 = some c ∧
    (org_webrtc_VideoDecoderWrapper_clazz env
        (org_webrtc_VideoDecoderWrapper_clazz env (some c)).2).1 = some c ∧
    (lazyGetStaticMethodID env clazz kMethodName_createDecoderCallback
        kMethodSignature_createDecoderCallback (some m)).1 = some m ∧
    (lazyGetStaticMethodID env clazz kMethodName_createDecoderCallback
        kMethodSignature_createDecoderCallback
        (lazyGetStaticMethodID env clazz kMethodName_createDecoderCallback
          kMethodSignature_createDecoderCallback (some m)).2).1 = some m :=
  ⟨rfl, rfl, rfl, rfl⟩

/-- C10: No invocation of
`Java_org_webrtc_VideoDecoderWrapper_nativeOnDecodedFrame` reads or
writes the class/method handle caches: the cache slots after the call are
exactly the slots before it, and every observable output (fatal checks and
handler calls) is the same for any two cache states, so the trampoline
does not depend on their contents. -/
theorem nativeOnDecodedFrame_cache_independent (st stOther : CacheState)
    (ptr : Int) (frame decodeTimeMs qp : Nat) :
    (Java_org_webrtc_VideoDecoderWrapper_nativeOnDecodedFrame st ptr frame
        decodeTimeMs qp).cache = st ∧
    (Java_org_webrtc_VideoDecoderWrapper_nativeOnDecodedFrame st ptr frame
        decodeTimeMs qp).fatals =
      (Java_org_webrtc_VideoDecoderWrapper_nativeOnDecodedFrame stOther ptr
        frame decodeTimeMs qp).fatals ∧
    (Java_org_webrtc_VideoDecoderWrapper_nativeOnDecodedFrame st ptr frame
        decodeTimeMs qp).calls =
      (Java_org_webrtc_VideoDecoderWrapper_nativeOnDecodedFrame stOther ptr
        frame decodeTimeMs qp).calls := by
  unfold Java_org_webrtc_VideoDecoderWrapper_nativeOnDecodedFrame
  by_cases h : CHECK_NATIVE_PTR_triggers ptr <;> simp [h]

/-- C3: For every call to `Java_VideoDecoderWrapper_createDecoderCallback`
in which class or method resolution fails, the call aborts via a fatal
integrity check (exactly one fatal check is triggered), no value is
returned to the caller (`ret = none`), and the managed factory method is
not invoked (`managedCalls = []`). -/
theorem createDecoderCallback_resolution_failure_fatal (env : JNIEnv)
    (st : CacheState) (nativeDecoder : Int)
    (h : (org_webrtc_VideoDecoderWrapper_clazz env
          st.g_org_webrtc_VideoDecoderWrapper_clazz).1 = none ∨
        ∃ clazz, (org_webrtc_VideoDecoderWrapper_clazz env
            st.g_org_webrtc_VideoDecoderWrapper_clazz).1 = some clazz ∧
          (lazyGetStaticMethodID env clazz kMethodName_createDecoderCallback
            kMethodSignature_createDecoderCallback
            st.g_org_webrtc_VideoDecoderWrapper_createDecoderCallback1).1
            = none) :
    (Java_VideoDecoderWrapper_createDecoderCallback env st
        nativeDecoder).fatals.length = 1 ∧
    (Java_VideoDecoderWrapper_createDecoderCallback env st
        nativeDecoder).managedCalls = [] ∧
    (Java_VideoDecoderWrapper_createDecoderCallback env st
        nativeDecoder).ret = none := by
  rcases hcl : org_webrtc_VideoDecoderWrapper_clazz env
      st.g_org_webrtc_VideoDecoderWrapper_clazz with ⟨o, clazzSlot⟩
  rcases h with hnone | ⟨clazz, hclazz, hmeth⟩
  · rw [hcl] at hnone
    simp only at hnone
    subst hnone
    simp [Java_VideoDecoderWrapper_createDecoderCallback, hcl]
  · rw [hcl] at hclazz
    simp only at hclazz
    subst hclazz
    rcases hmm : lazyGetStaticMethodID env clazz
        kMethodName_createDecoderCallback
        kMethodSignature_createDecoderCallback
        st.g_org_webrtc_VideoDecoderWrapper_createDecoderCallback1
      with ⟨mo, methodSlot⟩
    rw [hmm] at hmeth
    simp only at hmeth
    subst hmeth
    simp [Java_VideoDecoderWrapper_createDecoderCallback, hcl, hmm]

/-- Witness for C3: a runtime in which class resolution fails, with both
cache slots empty. -/
theorem createDecoderCallback_resolution_failure_fatal_witness :
    (Java_VideoDecoderWrapper_createDecoderCallback envAllFail
        ⟨none, none⟩ 0).fatals.length = 1 ∧
    (Java_VideoDecoderWrapper_createDecoderCallback envAllFail
        ⟨none, none⟩ 0).managedCalls = [] ∧
    (Java_VideoDecoderWrapper_createDecoderCallback envAllFail
        ⟨none, none⟩ 0).ret = none :=
  createDecoderCallback_resolution_failure_fatal envAllFail ⟨none, none⟩ 0
    (Or.inl rfl)

/-- C5: Each cache slot transitions from its initial null value to a
non-null resolved value at most once and is never reset or invalidated by
any operation of this file: whatever value a populated slot holds, it
still holds it after any invocation of either entry point — for every
runtime, every companion-slot content, every argument, a populated
`g_org_webrtc_VideoDecoderWrapper_clazz` keeps its value across
`Java_VideoDecoderWrapper_createDecoderCallback`, a populated
`g_org_webrtc_VideoDecoderWrapper_createDecoderCallback1` likewise, and
`Java_org_webrtc_VideoDecoderWrapper_nativeOnDecodedFrame` leaves the
whole cache untouched. -/
theorem cache_slots_write_once (env : JNIEnv)
    (clazzSlot methodSlot : Option Nat) (c m : Nat) (n ptr : Int)
    (frame decodeTimeMs qp : Nat) (st : CacheState) :
    (Java_VideoDecoderWrapper_createDecoderCallback env
        ⟨some c, methodSlot⟩ n).cache.g_org_webrtc_VideoDecoderWrapper_clazz
      = some c ∧
    (Java_VideoDecoderWrapper_createDecoderCallback env
        ⟨clazzSlot, some m⟩
        n).cache.g_org_webrtc_VideoDecoderWrapper_createDecoderCallback1
      = some m ∧
    (Java_org_webrtc_VideoDecoderWrapper_nativeOnDecodedFrame st ptr frame
        decodeTimeMs qp).cache = st := by
  refine ⟨?_, ?_, ?_⟩
  · rcases hm : lazyGetStaticMethodID env c kMethodName_createDecoderCallback
        kMethodSignature_createDecoderCallback methodSlot with ⟨mo, mslot⟩
    cases mo <;>
      simp [Java_VideoDecoderWrapper_createDecoderCallback,
        org_webrtc_VideoDecoderWrapper_clazz, LazyGetClass, hm]
  · rcases ho : org_webrtc_VideoDecoderWrapper_clazz env clazzSlot
      with ⟨o, oslot⟩
    cases o <;>
      simp [Java_VideoDecoderWrapper_createDecoderCallback, ho,
        lazyGetStaticMethodID]
  · unfold Java_org_webrtc_VideoDecoderWrapper_nativeOnDecodedFrame
    by_cases h : CHECK_NATIVE_PTR_triggers ptr <;> simp [h]

/-- C6: The managed factory is consumed through fixed compile-time
constants: the class path constant is exactly
`"org/webrtc/VideoDecoderWrapper"`, the method name is exactly
`"createDecoderCallback"`, the JNI signature is exactly
`"(J)Lorg/webrtc/VideoDecoder$Callback;"` (one `long`, returning the
managed callback type); every class lookup
`Java_VideoDecoderWrapper_createDecoderCallback` performs uses the class
path constant, and every method-id resolution it performs uses that name,
that signature, and static linkage. -/
theorem createDecoderCallback_fixed_constants (env : JNIEnv)
    (st : CacheState) (n : Int) :
    kClassPath_org_webrtc_VideoDecoderWrapper
      = "org/webrtc/VideoDecoderWrapper" ∧
    kMethodName_createDecoderCallback = "createDecoderCallback" ∧
    kMethodSignature_createDecoderCallback
      = "(J)Lorg/webrtc/VideoDecoder$Callback;" ∧
    ((Java_VideoDecoderWrapper_createDecoderCallback env st n).classLookups
        = [] ∨
      (Java_VideoDecoderWrapper_createDecoderCallback env st n).classLookups
        = [kClassPath_org_webrtc_VideoDecoderWrapper]) ∧
    (Java_VideoDecoderWrapper_createDecoderCallback env st
        n).methodLookups.all
      (fun lk => lk.name == kMethodName_createDecoderCallback &&
        lk.signature == kMethodSignature_createDecoderCallback &&
        lk.isStatic) = true := by
  obtain ⟨oc, om⟩ := st
  refine ⟨rfl, rfl, rfl, ?_, ?_⟩ <;>
  · cases oc with
    | some cv =>
      cases om with
      | some mv =>
        simp [Java_VideoDecoderWrapper_createDecoderCallback,
          org_webrtc_VideoDecoderWrapper_clazz, LazyGetClass,
          lazyGetStaticMethodID]
      | none =>
        rcases hm : env.getStaticMethodID cv
            kMethodName_createDecoderCallback
            kMethodSignature_createDecoderCallback with _ | mid <;>
          simp [Java_VideoDecoderWrapper_createDecoderCallback,
            org_webrtc_VideoDecoderWrapper_clazz, LazyGetClass,
            lazyGetStaticMethodID, hm]
    | none =>
      rcases hf : env.findClass kClassPath_org_webrtc_VideoDecoderWrapper
        with _ | cv
      · simp [Java_VideoDecoderWrapper_createDecoderCallback,
          org_webrtc_VideoDecoderWrapper_clazz, LazyGetClass, hf]
      · cases om with
        | some mv =>
          simp [Java_VideoDecoderWrapper_createDecoderCallback,
            org_webrtc_VideoDecoderWrapper_clazz, LazyGetClass,
            lazyGetStaticMethodID, hf]
        | none =>
          rcases hm : env.getStaticMethodID cv
              kMethodName_createDecoderCallback
              kMethodSignature_createDecoderCallback with _ | mid <;>
            simp [Java_VideoDecoderWrapper_createDecoderCallback,
              org_webrtc_VideoDecoderWrapper_clazz, LazyGetClass,
              lazyGetStaticMethodID, hf, hm]

/-- C8: Every call to `Java_VideoDecoderWrapper_createDecoderCallback`
that does not abort returns the reference produced by the managed call
wrapped in a `ScopedJavaLocalRef`: the returned value is present, it is
exactly the managed call's result wrapped, and on call-frame exit the
scoped wrapper releases precisely that reference — rather than handing
out a raw long-lived reference. -/
theorem createDecoderCallback_returns_scoped_ref (env : JNIEnv)
    (st : CacheState) (n : Int)
    (h : (Java_VideoDecoderWrapper_createDecoderCallback env st n).fatals
      = []) :
    ((Java_VideoDecoderWrapper_createDecoderCallback env st n).ret).isSome
      = true ∧
    (Java_VideoDecoderWrapper_createDecoderCallback env st n).ret =
      ((Java_VideoDecoderWrapper_createDecoderCallback env st
          n).managedCalls.head?).map
        (fun mc =>
          { obj := env.callStaticObjectMethod mc.clazz mc.methodId mc.arg }) ∧
    ((Java_VideoDecoderWrapper_createDecoderCallback env st n).ret).map
        ScopedJavaLocalRef.onFrameExit =
      ((Java_VideoDecoderWrapper_createDecoderCallback env st
          n).managedCalls.head?).map
        (fun mc => ReleaseEvent.deleteLocalRef
          (env.callStaticObjectMethod mc.clazz mc.methodId mc.arg)) := by
  rcases ho : org_webrtc_VideoDecoderWrapper_clazz env
      st.g_org_webrtc_VideoDecoderWrapper_clazz with ⟨o, oslot⟩
  cases o with
  | none =>
    exfalso
    simp [Java_VideoDecoderWrapper_createDecoderCallback, ho] at h
  | some clazz =>
    rcases hm : lazyGetStaticMethodID env clazz
        kMethodName_createDecoderCallback
        kMethodSignature_createDecoderCallback
        st.g_org_webrtc_VideoDecoderWrapper_createDecoderCallback1
      with ⟨mo, mslot⟩
    cases mo with
    | none =>
      exfalso
      simp [Java_VideoDecoderWrapper_createDecoderCallback, ho, hm] at h
    | some mid =>
      simp [Java_VideoDecoderWrapper_createDecoderCallback, ho, hm,
        ScopedJavaLocalRef.onFrameExit]

/-- Witness for C8: a fully resolving runtime whose factory returns the
null `jobject`, starting from empty cache slots. -/
theorem createDecoderCallback_returns_scoped_ref_witness :
    ((Java_VideoDecoderWrapper_createDecoderCallback envResolves
        ⟨none, none⟩ 5).ret).isSome = true ∧
    (Java_VideoDecoderWrapper_createDecoderCallback envResolves
        ⟨none, none⟩ 5).ret =
      ((Java_VideoDecoderWrapper_createDecoderCallback envResolves
          ⟨none, none⟩ 5).managedCalls.head?).map
        (fun mc =>
          { obj := envResolves.callStaticObjectMethod mc.clazz mc.methodId
              mc.arg }) ∧
    ((Java_VideoDecoderWrapper_createDecoderCallback envResolves
        ⟨none, none⟩ 5).ret).map ScopedJavaLocalRef.onFrameExit =
      ((Java_VideoDecoderWrapper_createDecoderCallback envResolves
          ⟨none, none⟩ 5).managedCalls.head?).map
        (fun mc => ReleaseEvent.deleteLocalRef
          (envResolves.callStaticObjectMethod mc.clazz mc.methodId
            mc.arg)) :=
  createDecoderCallback_returns_scoped_ref envResolves ⟨none, none⟩ 5 rfl

/-- C9: For every `jlong` value `nativeDecoder`, a successful call to
`Java_VideoDecoderWrapper_createDecoderCallback` invokes the static
managed factory method exactly once with `nativeDecoder` as its sole
extra argument, unmodified, and the `jobject` returned by that managed
call is returned to the caller unchanged except for being wrapped in a
`ScopedJavaLocalRef` — including when the managed call returns the null
object. -/
theorem createDecoderCallback_invokes_factory_once (env : JNIEnv)
    (st : CacheState) (nativeDecoder : Int) (clazz mid : Nat)
    (hc : (org_webrtc_VideoDecoderWrapper_clazz env
        st.g_org_webrtc_VideoDecoderWrapper_clazz).1 = some clazz)
    (hm : (lazyGetStaticMethodID env clazz
        kMethodName_createDecoderCallback
        kMethodSignature_createDecoderCallback
        st.g_org_webrtc_VideoDecoderWrapper_createDecoderCallback1).1
      = some mid) :
    (Java_VideoDecoderWrapper_createDecoderCallback env st
        nativeDecoder).managedCalls =
      [{ clazz := clazz, methodId := mid, arg := nativeDecoder }] ∧
    (Java_VideoDecoderWrapper_createDecoderCallback env st
        nativeDecoder).ret =
      some { obj := env.callStaticObjectMethod clazz mid nativeDecoder } := by
  rcases ho : org_webrtc_VideoDecoderWrapper_clazz env
      st.g_org_webrtc_VideoDecoderWrapper_clazz with ⟨o, oslot⟩
  rw [ho] at hc
  simp only at hc
  subst hc
  rcases hmm : lazyGetStaticMethodID env clazz
      kMethodName_createDecoderCallback
      kMethodSignature_createDecoderCallback
      st.g_org_webrtc_VideoDecoderWrapper_createDecoderCallback1
    with ⟨mo, mslot⟩
  rw [hmm] at hm
  simp only at hm
  subst hm
  simp [Java_VideoDecoderWrapper_createDecoderCallback, ho, hmm]

/-- Witness for C9: the fully resolving runtime (class handle `7`, method
id `11`, factory returning the null `jobject`) at `nativeDecoder = 42`
with empty cache slots. -/
theorem createDecoderCallback_invokes_factory_once_witness :
    (Java_VideoDecoderWrapper_createDecoderCallback envResolves
        ⟨none, none⟩ 42).managedCalls =
      [{ clazz := 7, methodId := 11, arg := 42 }] ∧
    (Java_VideoDecoderWrapper_createDecoderCallback envResolves
        ⟨none, none⟩ 42).ret =
      some { obj := envResolves.callStaticObjectMethod 7 11 42 } :=
  createDecoderCallback_invokes_factory_once envResolves ⟨none, none⟩ 42 7 11
    rfl rfl

/-- C7: When multiple threads concurrently perform first use of the class
handle cache, every thread observes the same single cached handle value:
in every interleaving reachable from the initial race state (duplicate
resolution work included), any two threads that have finished observed
equal handle values — no torn or mismatched values. -/
theorem clazz_cache_race_single_value (env : JNIEnv) (s : ClazzRaceState)
    (h : Relation.ReflTransGen (ClazzCacheStep env) clazzRaceInit s)
    (i j ci cj : Nat) (hi : s.threads i = ThreadPC.done ci)
    (hj : s.threads j = ThreadPC.done cj) : ci = cj := by
  obtain ⟨-, -, hdone⟩ := clazzRaceInv_reachable env h
  have h1 := hdone i ci hi
  have h2 := hdone j cj hj
  rw [h1] at h2
  exact Option.some.inj h2

/-- Intermediate race state: thread `0` missed the empty slot and resolved
the class path to handle `7`. -/
def raceS1 : ClazzRaceState :=
  { cache := clazzRaceInit.cache
    threads := setThread clazzRaceInit.threads 0 (ThreadPC.resolved 7) }

/-- Intermediate race state: thread `0` won the compare-and-set,
publishing handle `7`. -/
def raceS2 : ClazzRaceState :=
  { cache := some 7
    threads := setThread raceS1.threads 0 (ThreadPC.done 7) }

/-- Final race state: thread `1` loaded the published slot and finished. -/
def raceS3 : ClazzRaceState :=
  { cache := raceS2.cache
    threads := setThread raceS2.threads 1 (ThreadPC.done 7) }

/-- Witness for C7: a concrete two-thread interleaving under the
resolving runtime — thread `0` misses, resolves and publishes `7`, thread
`1` then hits the populated slot — after which both threads are done and
their observations agree. -/
theorem clazz_cache_race_single_value_witness :
    Relation.ReflTransGen (ClazzCacheStep envResolves) clazzRaceInit
      raceS3 ∧
    raceS3.threads 0 = ThreadPC.done 7 ∧
    raceS3.threads 1 = ThreadPC.done 7 ∧
    (7 : Nat) = 7 := by
  have h01 : ClazzCacheStep envResolves clazzRaceInit raceS1 :=
    ClazzCacheStep.readMiss clazzRaceInit 0 7 rfl rfl rfl
  have h12 : ClazzCacheStep envResolves raceS1 raceS2 :=
    ClazzCacheStep.casWin raceS1 0 7 (by decide) rfl
  have h23 : ClazzCacheStep envResolves raceS2 raceS3 :=
    ClazzCacheStep.readHit raceS2 1 7 (by decide) rfl
  have hreach : Relation.ReflTransGen (ClazzCacheStep envResolves)
      clazzRaceInit raceS3 :=
    Relation.ReflTransGen.head h01
      (Relation.ReflTransGen.head h12 (Relation.ReflTransGen.single h23))
  exact ⟨hreach, by decide, by decide,
    clazz_cache_race_single_value envResolves raceS3 hreach 0 1 7 7
      (by decide) (by decide)⟩

end VideoDecoderWrapperJni
